import Mathlib

/-!
Shallow embedding of the boat-rental pricing and booking service
(`src/main.py`), together with theorems checking the natural-language
specification against it.

Modelling conventions:
- Python `float` currency arithmetic is embedded as exact rational
  arithmetic over `ℚ`; Python's `round(x, 2)` (round-half-to-even) is
  `round2` below.
- Python `date` values are embedded as proleptic day ordinals in `ℤ`;
  `(end - start).days` is plain integer subtraction.
- The request's `extras` dict (`Dict[str, bool]`, insertion-ordered) is an
  association list `List (String × Bool)`.
- `HTTPException(status_code, detail)` is the error type `HTTPError`;
  a raising Python function becomes a Lean function into `Except HTTPError _`.
- The external document store (`database.py`, behind `db`,
  `create_document`, and `find_one`) is not part of the sources; it is
  modelled from the spec's external-interface section (`findOne` is an
  association-list lookup, `insertOne` appends and returns a
  caller-supplied generated identifier).
-/

namespace BoatRental

/-- Embedding of FastAPI's `HTTPException`: a status code and a detail string. -/
structure HTTPError where
  status_code : Nat
  detail : String
deriving DecidableEq, Repr

/-- Floor of a rational number, computed directly from its reduced
numerator and denominator with integer floor-division. -/
def ratFloor (q : ℚ) : ℤ := q.num.fdiv (q.den : ℤ)

/-- Round a rational to the nearest integer, ties to the even integer:
the semantics of Python's builtin `round` on exact values. -/
def roundHalfEven (q : ℚ) : ℤ :=
  let f := ratFloor q
  let r := q - (f : ℚ)
  if r < 1 / 2 then f
  else if 1 / 2 < r then f + 1
  else if f % 2 = 0 then f else f + 1

/-- Embedding of Python's `round(x, 2)`: round to the nearest multiple of
`1/100`, ties to even. -/
def round2 (q : ℚ) : ℚ := (roundHalfEven (q * 100) : ℚ) / 100

/-- The three fields of a stored boat document that `compute_quote` reads,
each optional because the code accesses them with `boat.get(key, default)`;
the remaining fields of the boat document (name, type, capacity, location,
images, description, features) are carried so that a stored document is
persisted and returned whole. A `none` marks an absent key. -/
structure BoatDoc where
  name : Option String := none
  type : Option String := none
  capacity : Option ℤ := none
  base_price_per_day : Option ℚ := none
  location : Option String := none
  images : List String := []
  description : Option String := none
  features : List String := []
  tax_rate : Option ℚ := none
  cleaning_fee : Option ℚ := none
deriving DecidableEq, Repr

/-- The constraints `schemas.py` declares on the `Boat` model (capacity ≥ 1,
non-negative base daily price and cleaning fee, tax rate in [0, 0.3]),
stated on a stored document with every constrained field present. -/
def boatSchemaValid (b : BoatDoc) : Prop :=
  (∃ c, b.capacity = some c ∧ 1 ≤ c) ∧
  (∃ p, b.base_price_per_day = some p ∧ 0 ≤ p) ∧
  (∃ t, b.tax_rate = some t ∧ 0 ≤ t ∧ t ≤ 3 / 10) ∧
  (∃ f, b.cleaning_fee = some f ∧ 0 ≤ f)

/-- Embedding of `EXTRA_PRICING`: the fixed catalog mapping an extra key to
its pricing-rule dict, here the pair (type string, amount). -/
def EXTRA_PRICING (key : String) : Option (String × ℚ) :=
  if key = "skipper" then some ("per_day", 150)
  else if key = "fuel" then some ("per_day", 80)
  else if key = "snorkel" then some ("per_person_per_day", 20)
  else none

/-- Embedding of `date_range_days`: the whole-day difference, failing with
400 when it is below one. -/
def date_range_days (start end_ : ℤ) : Except HTTPError ℤ :=
  let days := end_ - start
  if days < 1 then
    .error ⟨400, "End date must be after start date by at least 1 day"⟩
  else
    .ok days

/-- The price-breakdown dict `compute_quote` builds. -/
structure Breakdown where
  nights : ℤ
  base : ℚ
  extras : List (String × ℚ)
  cleaning_fee : ℚ
  tax : ℚ
  total : ℚ
  currency : String
  transparent : Bool
  notes : String
deriving DecidableEq, Repr

/-- The body of the extras loop in `compute_quote`: the cost a pricing rule
assigns, given the guest count and day count. -/
def extraCost (guests days : ℤ) (rule : String × ℚ) : ℚ :=
  if rule.1 = "per_day" then rule.2 * (days : ℚ)
  else if rule.1 = "per_person_per_day" then rule.2 * (guests : ℚ) * (days : ℚ)
  else 0

/-- One iteration of the extras loop in `compute_quote`: skip disabled or
unrecognized keys, otherwise record the rounded cost in the extras map and
add the unrounded cost to the running total. -/
def extrasStep (guests days : ℤ) (acc : List (String × ℚ) × ℚ)
    (kv : String × Bool) : List (String × ℚ) × ℚ :=
  if kv.2 then
    match EXTRA_PRICING kv.1 with
    | none => acc
    | some rule =>
        (acc.1 ++ [(kv.1, round2 (extraCost guests days rule))],
         acc.2 + extraCost guests days rule)
  else acc

/-- Embedding of `compute_quote`. Mirrors the source line by line: validate
the date range, read the three rate-card fields with default `0`, round the
base and cleaning fee, run the extras loop, then compute subtotal, tax and
total. -/
def compute_quote (boat : BoatDoc) (start end_ : ℤ) (guests : ℤ)
    (extras : List (String × Bool)) : Except HTTPError Breakdown :=
  match date_range_days start end_ with
  | .error e => .error e
  | .ok days =>
    let base_daily := boat.base_price_per_day.getD 0
    let cleaning_fee := boat.cleaning_fee.getD 0
    let tax_rate := boat.tax_rate.getD 0
    let acc := extras.foldl (extrasStep guests days) ([], 0)
    let base := round2 (base_daily * (days : ℚ))
    let cfee := round2 cleaning_fee
    let subtotal := base + acc.2 + cfee
    let tax := round2 (subtotal * tax_rate)
    .ok {
      nights := days
      base := base
      extras := acc.1
      cleaning_fee := cfee
      tax := tax
      total := round2 (subtotal + tax)
      currency := "USD"
      transparent := true
      notes := "Prices include all fees and taxes. No hidden fees."
    }

/-- Modelled from the spec: a syntactically valid store identifier, realized
as bson's `ObjectId` string form (exactly 24 hexadecimal characters); the
sources only call the external `ObjectId` constructor and catch its failure. -/
def isValidObjectId (s : String) : Bool :=
  s.length == 24 && s.toList.all fun c =>
    c.isDigit || (('a' ≤ c && c ≤ 'f') || ('A' ≤ c && c ≤ 'F'))

/-- A stored booking document, as assembled by `create_booking`; the two
dates are kept as day ordinals (the source serializes them with
`isoformat()`, an injective encoding) and `created_at` as an opaque
timestamp string. -/
structure BookingDoc where
  boat_id : String
  start_date : ℤ
  end_date : ℤ
  guests : ℤ
  customer_name : String
  customer_email : String
  customer_phone : Option String
  extras : List (String × Bool)
  notes : Option String
  pricing : Breakdown
  status : String
  created_at : String
deriving DecidableEq, Repr

/-- Modelled from the spec: the external document store's two collections,
each an insertion-ordered association list from generated identifier to
document (`findOne` is lookup, `insertOne` appends). -/
structure Store where
  boats : List (String × BoatDoc)
  bookings : List (String × BookingDoc)
deriving DecidableEq, Repr

/-- Modelled from the spec: `findOne(collection, identifier)` returns the
document stored under the identifier, or absent. -/
def findOne (coll : List (String × α)) (ident : String) : Option α :=
  coll.lookup ident

/-- Embedding of `get_boat_or_404`: reject a malformed identifier with 400,
a well-formed identifier with no matching record with 404, and otherwise
return the stored document. -/
def get_boat_or_404 (boats : List (String × BoatDoc)) (boat_id : String) :
    Except HTTPError BoatDoc :=
  if isValidObjectId boat_id then
    match findOne boats boat_id with
    | none => .error ⟨404, "Boat not found"⟩
    | some boat => .ok boat
  else
    .error ⟨400, "Invalid boat_id"⟩

/-- Embedding of the `POST /api/boats` handler `create_boat`: with no store,
fail with 500; otherwise persist the document via `insertOne` and return the
generated identifier. `newId` stands for the identifier the external store
generates. Returns the response together with the store after the call. -/
def create_boat (db : Option Store) (boat : BoatDoc) (newId : String) :
    Except HTTPError String × Option Store :=
  match db with
  | none => (.error ⟨500, "Database not available"⟩, none)
  | some s => (.ok newId, some { s with boats := s.boats ++ [(newId, boat)] })

/-- The request body of `POST /api/bookings` (`BookingRequest` in the
sources), after the framework's shape validation. -/
structure BookingRequest where
  boat_id : String
  start_date : ℤ
  end_date : ℤ
  guests : ℤ
  customer_name : String
  customer_email : String
  customer_phone : Option String := none
  extras : List (String × Bool) := []
  notes : Option String := none
deriving DecidableEq, Repr

/-- The response of `POST /api/bookings`. -/
structure BookingResponse where
  id : String
  status : String
  pricing : Breakdown
deriving DecidableEq, Repr

/-- Embedding of the `POST /api/bookings` handler `create_booking`: check
store availability, look up the boat, price the stay, then assemble and
persist the booking document. `now` stands for the current UTC timestamp
string, `newId` for the identifier the external store generates. Returns
the response together with the store after the call; when any step raises,
the store is unchanged. -/
def create_booking (db : Option Store) (req : BookingRequest)
    (now : String) (newId : String) :
    Except HTTPError BookingResponse × Option Store :=
  match db with
  | none => (.error ⟨500, "Database not available"⟩, db)
  | some s =>
    match get_boat_or_404 s.boats req.boat_id with
    | .error e => (.error e, db)
    | .ok boat =>
      match compute_quote boat req.start_date req.end_date req.guests req.extras with
      | .error e => (.error e, db)
      | .ok pricing =>
        let booking_doc : BookingDoc := {
          boat_id := req.boat_id
          start_date := req.start_date
          end_date := req.end_date
          guests := req.guests
          customer_name := req.customer_name
          customer_email := req.customer_email
          customer_phone := req.customer_phone
          extras := req.extras
          notes := req.notes
          pricing := pricing
          status := "requested"
          created_at := now
        }
        (.ok ⟨newId, "requested", pricing⟩,
         some { s with bookings := s.bookings ++ [(newId, booking_doc)] })

/-! Derived notions used only in theorem statements. -/

/-- An extra-selection entry the pricing loop prices: flag set and key in
the catalog. -/
def enabledKnown (kv : String × Bool) : Bool :=
  kv.2 && (EXTRA_PRICING kv.1).isSome

/-- The cost the catalog assigns to a key (0 for an unknown key). -/
def catalogCost (guests days : ℤ) (key : String) : ℚ :=
  match EXTRA_PRICING key with
  | some rule => extraCost guests days rule
  | none => 0

/-- The extras map `compute_quote` records: the priced entries, in request
order, with rounded costs. -/
def pricedExtras (guests days : ℤ) (extras : List (String × Bool)) :
    List (String × ℚ) :=
  (extras.filter enabledKnown).map fun kv =>
    (kv.1, round2 (catalogCost guests days kv.1))

/-- The running total the pricing loop accumulates: the unrounded costs of
the priced entries. -/
def rawExtrasTotal (guests days : ℤ) (extras : List (String × Bool)) : ℚ :=
  ((extras.filter enabledKnown).map fun kv => catalogCost guests days kv.1).sum

/-- Sum of the values of an association list with rational values. -/
def sumVals (l : List (String × ℚ)) : ℚ := (l.map Prod.snd).sum

/-- A rational that is exact in two decimal places: an integer number of
hundredths. -/
def twoDecimals (q : ℚ) : Prop := ∃ n : ℤ, q = (n : ℚ) / 100

/-- The seeded "Aqua Breeze 32" rate card, used as a concrete input. -/
def sampleBoat : BoatDoc :=
  { name := some "Aqua Breeze 32"
    type := some "sailboat"
    capacity := some 6
    base_price_per_day := some 420
    location := some "Marina Grande"
    tax_rate := some (8 / 100)
    cleaning_fee := some 35 }

/-! Helper lemmas. -/

lemma ratFloor_intCast (n : ℤ) : ratFloor (n : ℚ) = n := by
  simp [ratFloor]

lemma roundHalfEven_intCast (n : ℤ) : roundHalfEven (n : ℚ) = n := by
  unfold roundHalfEven
  rw [ratFloor_intCast]
  norm_num

lemma round2_eq (q : ℚ) (n : ℤ) (h : q * 100 = (n : ℚ)) :
    round2 q = (n : ℚ) / 100 := by
  unfold round2
  rw [h, roundHalfEven_intCast]

lemma twoDecimals_round2 (q : ℚ) : twoDecimals (round2 q) :=
  ⟨roundHalfEven (q * 100), rfl⟩

lemma twoDecimals_intCast (n : ℤ) : twoDecimals (n : ℚ) :=
  ⟨100 * n, by push_cast; ring⟩

lemma twoDecimals_add {a b : ℚ} (ha : twoDecimals a) (hb : twoDecimals b) :
    twoDecimals (a + b) := by
  obtain ⟨m, rfl⟩ := ha
  obtain ⟨n, rfl⟩ := hb
  exact ⟨m + n, by push_cast; ring⟩

lemma round2_eq_self {q : ℚ} (h : twoDecimals q) : round2 q = q := by
  obtain ⟨n, rfl⟩ := h
  rw [round2_eq _ n (by field_simp)]

lemma catalogCost_int (guests days : ℤ) (key : String) :
    ∃ n : ℤ, catalogCost guests days key = (n : ℚ) := by
  unfold catalogCost EXTRA_PRICING
  split_ifs
  · exact ⟨150 * days, by simp [extraCost]⟩
  · exact ⟨80 * days, by simp [extraCost]⟩
  · exact ⟨20 * guests * days, by simp [extraCost]⟩
  · exact ⟨0, by simp⟩

lemma extras_foldl_spec (guests days : ℤ) (extras : List (String × Bool)) :
    ∀ acc : List (String × ℚ) × ℚ,
      extras.foldl (extrasStep guests days) acc =
        (acc.1 ++ pricedExtras guests days extras,
         acc.2 + rawExtrasTotal guests days extras) := by
  induction extras with
  | nil => intro acc; simp [pricedExtras, rawExtrasTotal]
  | cons kv rest ih =>
    intro acc
    rw [List.foldl_cons, ih]
    by_cases h1 : kv.2
    · cases h2 : EXTRA_PRICING kv.1 with
      | none =>
        simp [extrasStep, enabledKnown, pricedExtras, rawExtrasTotal, h1, h2,
          List.filter_cons]
      | some rule =>
        simp [extrasStep, enabledKnown, pricedExtras, rawExtrasTotal, h1, h2,
          catalogCost, List.filter_cons, add_assoc]
    · simp [extrasStep, enabledKnown, pricedExtras, rawExtrasTotal, h1,
        List.filter_cons]

lemma rawExtrasTotal_int (guests days : ℤ) (extras : List (String × Bool)) :
    ∃ n : ℤ, rawExtrasTotal guests days extras = (n : ℚ) := by
  unfold rawExtrasTotal
  generalize extras.filter enabledKnown = l
  induction l with
  | nil => exact ⟨0, by simp⟩
  | cons kv rest ih =>
    obtain ⟨m, hm⟩ := ih
    obtain ⟨k, hk⟩ := catalogCost_int guests days kv.1
    exact ⟨k + m, by simp [hk, hm]⟩

lemma sumVals_pricedExtras (guests days : ℤ) (extras : List (String × Bool)) :
    sumVals (pricedExtras guests days extras) = rawExtrasTotal guests days extras := by
  unfold sumVals pricedExtras rawExtrasTotal
  generalize extras.filter enabledKnown = l
  induction l with
  | nil => simp
  | cons kv rest ih =>
    obtain ⟨k, hk⟩ := catalogCost_int guests days kv.1
    have hr : round2 (catalogCost guests days kv.1) = catalogCost guests days kv.1 := by
      rw [hk]
      exact round2_eq_self (twoDecimals_intCast k)
    have ih2 := ih
    simp only [List.map_map] at ih2
    simp [hr, ih, ih2, List.map_map]

lemma pricedExtras_twoDecimals (guests days : ℤ) (extras : List (String × Bool)) :
    ∀ kv ∈ pricedExtras guests days extras, twoDecimals kv.2 := by
  intro kv hkv
  unfold pricedExtras at hkv
  obtain ⟨kv0, _, rfl⟩ := List.mem_map.mp hkv
  exact twoDecimals_round2 _

/-- Closed form of `compute_quote` on a valid date range. -/
lemma compute_quote_ok (boat : BoatDoc) (start end_ guests : ℤ)
    (extras : List (String × Bool)) (h : 1 ≤ end_ - start) :
    compute_quote boat start end_ guests extras =
      .ok { nights := end_ - start
            base := round2 (boat.base_price_per_day.getD 0 * ((end_ - start : ℤ) : ℚ))
            extras := pricedExtras guests (end_ - start) extras
            cleaning_fee := round2 (boat.cleaning_fee.getD 0)
            tax := round2 ((round2 (boat.base_price_per_day.getD 0 * ((end_ - start : ℤ) : ℚ)) +
                    rawExtrasTotal guests (end_ - start) extras +
                    round2 (boat.cleaning_fee.getD 0)) * boat.tax_rate.getD 0)
            total := round2 ((round2 (boat.base_price_per_day.getD 0 * ((end_ - start : ℤ) : ℚ)) +
                    rawExtrasTotal guests (end_ - start) extras +
                    round2 (boat.cleaning_fee.getD 0)) +
                  round2 ((round2 (boat.base_price_per_day.getD 0 * ((end_ - start : ℤ) : ℚ)) +
                    rawExtrasTotal guests (end_ - start) extras +
                    round2 (boat.cleaning_fee.getD 0)) * boat.tax_rate.getD 0))
            currency := "USD"
            transparent := true
            notes := "Prices include all fees and taxes. No hidden fees." } := by
  unfold compute_quote date_range_days
  rw [if_neg (by omega)]
  simp only [extras_foldl_spec, List.nil_append, zero_add]

/-- Closed form of `compute_quote` on an invalid date range. -/
lemma compute_quote_error (boat : BoatDoc) (start end_ guests : ℤ)
    (extras : List (String × Bool)) (h : end_ - start < 1) :
    compute_quote boat start end_ guests extras =
      .error ⟨400, "End date must be after start date by at least 1 day"⟩ := by
  unfold compute_quote date_range_days
  rw [if_pos h]

lemma filter_enabledKnown_sub (p : String × Bool → Bool)
    (hp : ∀ kv, enabledKnown kv = true → p kv = true)
    (extras : List (String × Bool)) :
    (extras.filter p).filter enabledKnown = extras.filter enabledKnown := by
  induction extras with
  | nil => rfl
  | cons kv rest ih =>
    by_cases h1 : enabledKnown kv = true
    · have h2 := hp kv h1
      simp [List.filter_cons, h1, h2, ih]
    · by_cases h2 : p kv = true
      · simp [List.filter_cons, h1, h2, ih]
      · simp [List.filter_cons, h1, h2, ih]

lemma pricedExtras_filter (guests days : ℤ) (p : String × Bool → Bool)
    (hp : ∀ kv, enabledKnown kv = true → p kv = true)
    (extras : List (String × Bool)) :
    pricedExtras guests days (extras.filter p) = pricedExtras guests days extras := by
  unfold pricedExtras
  rw [filter_enabledKnown_sub p hp]

lemma rawExtrasTotal_filter (guests days : ℤ) (p : String × Bool → Bool)
    (hp : ∀ kv, enabledKnown kv = true → p kv = true)
    (extras : List (String × Bool)) :
    rawExtrasTotal guests days (extras.filter p) = rawExtrasTotal guests days extras := by
  unfold rawExtrasTotal
  rw [filter_enabledKnown_sub p hp]

lemma sample_quote_three_nights :
    compute_quote sampleBoat 0 3 2 [("skipper", true), ("snorkel", true)] =
      .ok ⟨3, 1260, [("skipper", 450), ("snorkel", 120)], 35, 1492 / 10, 20142 / 10,
        "USD", true, "Prices include all fees and taxes. No hidden fees."⟩ := by
  rw [compute_quote_ok _ _ _ _ _ (by norm_num)]
  have e1 : EXTRA_PRICING "skipper" = some ("per_day", 150) := rfl
  have e2 : EXTRA_PRICING "snorkel" = some ("per_person_per_day", 20) := rfl
  have hsk : catalogCost 2 (3 : ℤ) "skipper" = 450 := by
    simp [catalogCost, e1, extraCost]
    norm_num
  have hsn : catalogCost 2 (3 : ℤ) "snorkel" = 120 := by
    simp [catalogCost, e2, extraCost]
    norm_num
  have hpe : pricedExtras 2 ((3 : ℤ) - 0) [("skipper", true), ("snorkel", true)] =
      [("skipper", round2 450), ("snorkel", round2 120)] := by
    simp [pricedExtras, List.filter, enabledKnown, e1, e2, hsk, hsn]
  have hraw : rawExtrasTotal 2 ((3 : ℤ) - 0) [("skipper", true), ("snorkel", true)] = 570 := by
    simp [rawExtrasTotal, List.filter, enabledKnown, e1, e2, hsk, hsn]
    norm_num
  have h1 : sampleBoat.base_price_per_day.getD 0 = 420 := rfl
  have h2 : sampleBoat.cleaning_fee.getD 0 = 35 := rfl
  have h3 : sampleBoat.tax_rate.getD 0 = 8 / 100 := rfl
  have r450 : round2 (450 : ℚ) = 450 := round2_eq_self ⟨45000, by norm_num⟩
  have r120 : round2 (120 : ℚ) = 120 := round2_eq_self ⟨12000, by norm_num⟩
  have r35 : round2 (35 : ℚ) = 35 := round2_eq_self ⟨3500, by norm_num⟩
  have r1260 : round2 ((420 : ℚ) * (((3 : ℤ) - 0 : ℤ) : ℚ)) = 1260 := by
    rw [show (420 : ℚ) * (((3 : ℤ) - 0 : ℤ) : ℚ) = 1260 by push_cast; norm_num]
    exact round2_eq_self ⟨126000, by norm_num⟩
  have htax : round2 (((1260 : ℚ) + 570 + 35) * (8 / 100)) = 1492 / 10 := by
    rw [show ((1260 : ℚ) + 570 + 35) * (8 / 100) = 1492 / 10 by norm_num]
    exact round2_eq_self ⟨14920, by norm_num⟩
  have htot : round2 (((1260 : ℚ) + 570 + 35) + 1492 / 10) = 20142 / 10 := by
    rw [show ((1260 : ℚ) + 570 + 35) + 1492 / 10 = 20142 / 10 by norm_num]
    exact round2_eq_self ⟨201420, by norm_num⟩
  simp only [h1, h2, h3, hpe, hraw, r450, r120, r35, r1260, htax, htot]
  norm_num

lemma sample_quote_one_night :
    compute_quote sampleBoat 0 1 2 [] =
      .ok ⟨1, 420, [], 35, 364 / 10, 4914 / 10,
        "USD", true, "Prices include all fees and taxes. No hidden fees."⟩ := by
  rw [compute_quote_ok _ _ _ _ _ (by norm_num)]
  have hpe : pricedExtras 2 ((1 : ℤ) - 0) [] = [] := rfl
  have hraw : rawExtrasTotal 2 ((1 : ℤ) - 0) [] = 0 := rfl
  have h1 : sampleBoat.base_price_per_day.getD 0 = 420 := rfl
  have h2 : sampleBoat.cleaning_fee.getD 0 = 35 := rfl
  have h3 : sampleBoat.tax_rate.getD 0 = 8 / 100 := rfl
  have r35 : round2 (35 : ℚ) = 35 := round2_eq_self ⟨3500, by norm_num⟩
  have r420 : round2 ((420 : ℚ) * (((1 : ℤ) - 0 : ℤ) : ℚ)) = 420 := by
    rw [show (420 : ℚ) * (((1 : ℤ) - 0 : ℤ) : ℚ) = 420 by push_cast; norm_num]
    exact round2_eq_self ⟨42000, by norm_num⟩
  have htax : round2 (((420 : ℚ) + 0 + 35) * (8 / 100)) = 364 / 10 := by
    rw [show ((420 : ℚ) + 0 + 35) * (8 / 100) = 364 / 10 by norm_num]
    exact round2_eq_self ⟨3640, by norm_num⟩
  have htot : round2 (((420 : ℚ) + 0 + 35) + 364 / 10) = 4914 / 10 := by
    rw [show ((420 : ℚ) + 0 + 35) + 364 / 10 = 4914 / 10 by norm_num]
    exact round2_eq_self ⟨49140, by norm_num⟩
  simp only [h1, h2, h3, hpe, hraw, r35, r420, htax, htot]
  norm_num

/-! Claim theorems. -/

/-- C1: for every boat, valid date range, guest count ≥ 1 and extras
selection, the breakdown satisfies
`total = base + sum(extras map values) + cleaning_fee + tax` and
`tax = round2(subtotal * tax_rate)` with
`subtotal = base + sum(extras map values) + cleaning_fee`, and every
monetary field of the breakdown is exact in two decimal places. -/
theorem quote_total_invariant (boat : BoatDoc) (start end_ guests : ℤ)
    (extras : List (String × Bool)) ( _hg : 1 ≤ guests) (b : Breakdown)
    (h : compute_quote boat start end_ guests extras = .ok b) :
    b.total = b.base + sumVals b.extras + b.cleaning_fee + b.tax ∧
    b.tax = round2 ((b.base + sumVals b.extras + b.cleaning_fee) * boat.tax_rate.getD 0) ∧
    twoDecimals b.base ∧ (∀ kv ∈ b.extras, twoDecimals kv.2) ∧
    twoDecimals b.cleaning_fee ∧ twoDecimals b.tax ∧ twoDecimals b.total := by
  have hd : 1 ≤ end_ - start := by
    by_contra hlt
    rw [compute_quote_error boat start end_ guests extras (by omega)] at h
    exact absurd h (by simp)
  rw [compute_quote_ok boat start end_ guests extras hd] at h
  obtain rfl := Except.ok.inj h
  obtain ⟨t, ht⟩ := rawExtrasTotal_int guests (end_ - start) extras
  have htd : twoDecimals (rawExtrasTotal guests (end_ - start) extras) := by
    rw [ht]; exact twoDecimals_intCast t
  have hsub : twoDecimals
      (round2 (boat.base_price_per_day.getD 0 * ((end_ - start : ℤ) : ℚ)) +
        rawExtrasTotal guests (end_ - start) extras +
        round2 (boat.cleaning_fee.getD 0)) :=
    twoDecimals_add (twoDecimals_add (twoDecimals_round2 _) htd) (twoDecimals_round2 _)
  refine ⟨?_, ?_, twoDecimals_round2 _, pricedExtras_twoDecimals _ _ _,
    twoDecimals_round2 _, twoDecimals_round2 _, twoDecimals_round2 _⟩
  · show round2 _ = _
    rw [round2_eq_self (twoDecimals_add hsub (twoDecimals_round2 _))]
    rw [show sumVals (pricedExtras guests (end_ - start) extras) =
      rawExtrasTotal guests (end_ - start) extras from sumVals_pricedExtras _ _ _]
  · show round2 _ = _
    rw [show sumVals (pricedExtras guests (end_ - start) extras) =
      rawExtrasTotal guests (end_ - start) extras from sumVals_pricedExtras _ _ _]

/-- Witness for C1 at the sample boat, a 3-night stay, 2 guests and a
skipper. -/
theorem quote_total_invariant_witness :
    ∃ b, compute_quote sampleBoat 0 3 2 [("skipper", true)] = .ok b ∧
      b.total = b.base + sumVals b.extras + b.cleaning_fee + b.tax := by
  refine ⟨_, compute_quote_ok sampleBoat 0 3 2 [("skipper", true)] (by norm_num), ?_⟩
  exact (quote_total_invariant sampleBoat 0 3 2 [("skipper", true)] (by norm_num) _
    (compute_quote_ok sampleBoat 0 3 2 [("skipper", true)] (by norm_num))).1

/-- C2: the subtotal that tax and total are computed from is the rounded
base plus the sum of the rounded per-extra amounts stored in the extras map
plus the rounded cleaning fee; each of those components is already rounded
(rounding it again is the identity). -/
theorem quote_subtotal_from_rounded (boat : BoatDoc) (start end_ guests : ℤ)
    (extras : List (String × Bool)) (b : Breakdown)
    (h : compute_quote boat start end_ guests extras = .ok b) :
    b.tax = round2 ((b.base + sumVals b.extras + b.cleaning_fee) * boat.tax_rate.getD 0) ∧
    b.total = round2 (b.base + sumVals b.extras + b.cleaning_fee + b.tax) ∧
    round2 b.base = b.base ∧ (∀ kv ∈ b.extras, round2 kv.2 = kv.2) ∧
    round2 b.cleaning_fee = b.cleaning_fee := by
  have hd : 1 ≤ end_ - start := by
    by_contra hlt
    rw [compute_quote_error boat start end_ guests extras (by omega)] at h
    exact absurd h (by simp)
  rw [compute_quote_ok boat start end_ guests extras hd] at h
  obtain rfl := Except.ok.inj h
  have hs := sumVals_pricedExtras guests (end_ - start) extras
  refine ⟨?_, ?_, round2_eq_self (twoDecimals_round2 _), ?_, round2_eq_self (twoDecimals_round2 _)⟩
  · show round2 _ = _
    rw [hs]
  · show round2 _ = _
    rw [hs]
  · intro kv hkv
    exact round2_eq_self (pricedExtras_twoDecimals _ _ _ kv hkv)

/-- Witness for C2 at the sample boat, a 2-night stay, 3 guests and a
snorkel set. -/
theorem quote_subtotal_from_rounded_witness :
    ∃ b, compute_quote sampleBoat 0 2 3 [("snorkel", true)] = .ok b ∧
      b.tax = round2 ((b.base + sumVals b.extras + b.cleaning_fee) * sampleBoat.tax_rate.getD 0) := by
  refine ⟨_, compute_quote_ok sampleBoat 0 2 3 [("snorkel", true)] (by norm_num), ?_⟩
  exact (quote_subtotal_from_rounded sampleBoat 0 2 3 [("snorkel", true)] _
    (compute_quote_ok sampleBoat 0 2 3 [("snorkel", true)] (by norm_num))).1

/-- C3: `compute_quote` fails (with the invalid-date-range error, computing
no breakdown) exactly when the whole-day difference is below one, and on a
valid range the breakdown's `nights` is the whole-day difference. -/
theorem quote_invalid_date_range (boat : BoatDoc) (start end_ guests : ℤ)
    (extras : List (String × Bool)) :
    (end_ - start < 1 →
      compute_quote boat start end_ guests extras =
        .error ⟨400, "End date must be after start date by at least 1 day"⟩) ∧
    (1 ≤ end_ - start →
      ∃ b, compute_quote boat start end_ guests extras = .ok b ∧
        b.nights = end_ - start) ∧
    (∀ e, compute_quote boat start end_ guests extras = .error e →
      end_ - start < 1) := by
  refine ⟨fun h => compute_quote_error boat start end_ guests extras h, ?_, ?_⟩
  · intro h
    exact ⟨_, compute_quote_ok boat start end_ guests extras h, rfl⟩
  · intro e he
    by_contra hge
    rw [compute_quote_ok boat start end_ guests extras (by omega)] at he
    exact absurd he (by simp)

/-- Witness for C3: equal dates fail, a one-day and a two-day range
succeed with the right night count. -/
theorem quote_invalid_date_range_witness :
    compute_quote sampleBoat 5 5 2 [] =
      .error ⟨400, "End date must be after start date by at least 1 day"⟩ ∧
    compute_quote sampleBoat 7 5 2 [] =
      .error ⟨400, "End date must be after start date by at least 1 day"⟩ ∧
    ∃ b, compute_quote sampleBoat 3 5 2 [] = .ok b ∧ b.nights = 2 := by
  refine ⟨(quote_invalid_date_range sampleBoat 5 5 2 []).1 (by norm_num),
    (quote_invalid_date_range sampleBoat 7 5 2 []).1 (by norm_num), ?_⟩
  obtain ⟨b, hb, hn⟩ := (quote_invalid_date_range sampleBoat 3 5 2 []).2.1 (by norm_num)
  exact ⟨b, hb, by omega⟩

/-- C8: `get_boat_or_404` fails with 400 on a malformed identifier, with
404 on a well-formed identifier matching no record, and otherwise returns
exactly the stored record (and conversely only returns stored records). -/
theorem get_boat_trichotomy (boats : List (String × BoatDoc)) (boat_id : String) :
    (isValidObjectId boat_id = false →
      get_boat_or_404 boats boat_id = .error ⟨400, "Invalid boat_id"⟩) ∧
    (isValidObjectId boat_id = true → findOne boats boat_id = none →
      get_boat_or_404 boats boat_id = .error ⟨404, "Boat not found"⟩) ∧
    (∀ b, isValidObjectId boat_id = true → findOne boats boat_id = some b →
      get_boat_or_404 boats boat_id = .ok b) ∧
    (∀ b, get_boat_or_404 boats boat_id = .ok b → findOne boats boat_id = some b) := by
  refine ⟨?_, ?_, ?_, ?_⟩
  · intro h
    simp [get_boat_or_404, h]
  · intro h1 h2
    simp [get_boat_or_404, h1, h2]
  · intro b h1 h2
    simp [get_boat_or_404, h1, h2]
  · intro b h
    unfold get_boat_or_404 at h
    by_cases h1 : isValidObjectId boat_id
    · rw [if_pos h1] at h
      cases h2 : findOne boats boat_id with
      | none => rw [h2] at h; exact absurd h (by simp)
      | some b2 =>
        rw [h2] at h
        simp only [Except.ok.injEq] at h
        simp [h2, h]
    · rw [if_neg h1] at h
      exact absurd h (by simp)

/-- Witness for C8: a malformed identifier, a well-formed unknown
identifier, and the stored identifier, against a one-boat store. -/
theorem get_boat_trichotomy_witness :
    get_boat_or_404 [("0123456789abcdef01234567", sampleBoat)] "not-an-object-id" =
      .error ⟨400, "Invalid boat_id"⟩ ∧
    get_boat_or_404 [("0123456789abcdef01234567", sampleBoat)] "ffffffffffffffffffffffff" =
      .error ⟨404, "Boat not found"⟩ ∧
    get_boat_or_404 [("0123456789abcdef01234567", sampleBoat)] "0123456789abcdef01234567" =
      .ok sampleBoat := by
  refine ⟨(get_boat_trichotomy _ _).1 (by decide),
    (get_boat_trichotomy _ _).2.1 (by decide) rfl,
    (get_boat_trichotomy _ _).2.2.1 sampleBoat (by decide) rfl⟩

/-- C4: `create_booking` propagates lookup and pricing failures and leaves
the store unchanged on every error; in particular an unknown well-formed
boat identifier gives 404 and equal dates (after a successful lookup) give
the invalid-date-range 400, inserting no booking either way. -/
theorem create_booking_atomic (s : Store) (req : BookingRequest) (now newId : String) :
    (∀ e, (create_booking (some s) req now newId).1 = .error e →
      (create_booking (some s) req now newId).2 = some s) ∧
    (isValidObjectId req.boat_id = true → findOne s.boats req.boat_id = none →
      create_booking (some s) req now newId =
        (.error ⟨404, "Boat not found"⟩, some s)) ∧
    (∀ boat, get_boat_or_404 s.boats req.boat_id = .ok boat →
      req.end_date = req.start_date →
      create_booking (some s) req now newId =
        (.error ⟨400, "End date must be after start date by at least 1 day"⟩, some s)) := by
  refine ⟨?_, ?_, ?_⟩
  · intro e he
    cases hb : get_boat_or_404 s.boats req.boat_id with
    | error e2 => simp [create_booking, hb]
    | ok boat =>
      cases hq : compute_quote boat req.start_date req.end_date req.guests req.extras with
      | error e2 => simp [create_booking, hb, hq]
      | ok p => simp [create_booking, hb, hq] at he
  · intro h1 h2
    have hb : get_boat_or_404 s.boats req.boat_id = .error ⟨404, "Boat not found"⟩ := by
      simp [get_boat_or_404, h1, h2]
    simp [create_booking, hb]
  · intro boat hb heq
    have hq : compute_quote boat req.start_date req.end_date req.guests req.extras =
        .error ⟨400, "End date must be after start date by at least 1 day"⟩ :=
      compute_quote_error boat _ _ _ _ (by omega)
    simp [create_booking, hb, hq]

/-- Witness for C4: a valid-format unknown identifier, then an equal-dates
request against the stored boat, each against a one-boat, no-booking
store. -/
theorem create_booking_atomic_witness :
    create_booking (some ⟨[("0123456789abcdef01234567", sampleBoat)], []⟩)
        { boat_id := "ffffffffffffffffffffffff", start_date := 0, end_date := 2,
          guests := 2, customer_name := "Ada", customer_email := "ada@example.com" }
        "2026-10-12T00:00:00" "bbbbbbbbbbbbbbbbbbbbbbbb" =
      (.error ⟨404, "Boat not found"⟩,
       some ⟨[("0123456789abcdef01234567", sampleBoat)], []⟩) ∧
    create_booking (some ⟨[("0123456789abcdef01234567", sampleBoat)], []⟩)
        { boat_id := "0123456789abcdef01234567", start_date := 7, end_date := 7,
          guests := 2, customer_name := "Ada", customer_email := "ada@example.com" }
        "2026-10-12T00:00:00" "bbbbbbbbbbbbbbbbbbbbbbbb" =
      (.error ⟨400, "End date must be after start date by at least 1 day"⟩,
       some ⟨[("0123456789abcdef01234567", sampleBoat)], []⟩) := by
  constructor
  · exact (create_booking_atomic ⟨[("0123456789abcdef01234567", sampleBoat)], []⟩
      { boat_id := "ffffffffffffffffffffffff", start_date := 0, end_date := 2,
        guests := 2, customer_name := "Ada", customer_email := "ada@example.com" }
      "2026-10-12T00:00:00" "bbbbbbbbbbbbbbbbbbbbbbbb").2.1 (by decide) rfl
  · exact (create_booking_atomic ⟨[("0123456789abcdef01234567", sampleBoat)], []⟩
      { boat_id := "0123456789abcdef01234567", start_date := 7, end_date := 7,
        guests := 2, customer_name := "Ada", customer_email := "ada@example.com" }
      "2026-10-12T00:00:00" "bbbbbbbbbbbbbbbbbbbbbbbb").2.2 sampleBoat rfl rfl

/-- C9: a boat record lacking the rate-card fields does not make
`compute_quote` fail: each absent field is read as 0, so the quote succeeds
with base, cleaning fee and/or tax equal to 0 accordingly. -/
theorem quote_missing_fields_default_zero (boat : BoatDoc) (start end_ guests : ℤ)
    (extras : List (String × Bool)) (h : 1 ≤ end_ - start) :
    ∃ b, compute_quote boat start end_ guests extras = .ok b ∧
      (boat.base_price_per_day = none → b.base = 0) ∧
      (boat.cleaning_fee = none → b.cleaning_fee = 0) ∧
      (boat.tax_rate = none → b.tax = 0) := by
  have round2_zero : round2 0 = 0 := round2_eq_self ⟨0, by norm_num⟩
  refine ⟨_, compute_quote_ok boat start end_ guests extras h, ?_, ?_, ?_⟩
  · intro hb
    show round2 _ = 0
    rw [hb]
    simpa using round2_zero
  · intro hc
    show round2 _ = 0
    rw [hc]
    simpa using round2_zero
  · intro ht
    show round2 _ = 0
    rw [ht]
    simpa using round2_zero

/-- Witness for C9: a boat document with none of the three rate-card
fields, over a 2-night stay. -/
theorem quote_missing_fields_default_zero_witness :
    ∃ b, compute_quote { name := some "Bare" } 0 2 1 [] = .ok b ∧
      b.base = 0 ∧ b.cleaning_fee = 0 ∧ b.tax = 0 := by
  obtain ⟨b, hb, h1, h2, h3⟩ :=
    quote_missing_fields_default_zero { name := some "Bare" } 0 2 1 [] (by norm_num)
  exact ⟨b, hb, h1 rfl, h2 rfl, h3 rfl⟩

/-- C10: the boat-creation handler imposes no constraint on its document:
with the store available it persists any document unchanged and returns the
generated identifier, including documents violating every declared Boat
schema constraint. -/
theorem create_boat_no_validation (s : Store) (boat : BoatDoc) (newId : String) :
    create_boat (some s) boat newId =
      (.ok newId, some { s with boats := s.boats ++ [(newId, boat)] }) ∧
    ∃ bad : BoatDoc, ¬ boatSchemaValid bad ∧
      create_boat (some s) bad newId =
        (.ok newId, some { s with boats := s.boats ++ [(newId, bad)] }) := by
  refine ⟨rfl, ⟨{ capacity := some 0, tax_rate := some 1 }, ?_, rfl⟩⟩
  rintro ⟨⟨c, hc, hc1⟩, -⟩
  simp only [Option.some.injEq] at hc
  omega

/-- Witness for C10: inserting a schema-violating document into an empty
store. -/
theorem create_boat_no_validation_witness :
    create_boat (some ⟨[], []⟩) { capacity := some 0, tax_rate := some 1 } "x" =
      (.ok "x", some ⟨[("x", { capacity := some 0, tax_rate := some 1 })], []⟩) :=
  (create_boat_no_validation ⟨[], []⟩ { capacity := some 0, tax_rate := some 1 } "x").1

/-- C5: each enabled recognized extra is priced from the fixed catalog
(skipper and fuel per day at 150 and 80, snorkel per guest per day at 20),
rounded, and recorded under its key in request order: the extras map is
exactly the priced projection of the recognized enabled entries. -/
theorem quote_extras_pricing (boat : BoatDoc) (start end_ guests : ℤ)
    (extras : List (String × Bool)) (b : Breakdown)
    (h : compute_quote boat start end_ guests extras = .ok b) :
    EXTRA_PRICING "skipper" = some ("per_day", 150) ∧
    EXTRA_PRICING "fuel" = some ("per_day", 80) ∧
    EXTRA_PRICING "snorkel" = some ("per_person_per_day", 20) ∧
    b.extras = (extras.filter enabledKnown).map (fun kv =>
      (kv.1, round2 (catalogCost guests b.nights kv.1))) ∧
    (∀ key amount, EXTRA_PRICING key = some ("per_day", amount) →
      catalogCost guests b.nights key = amount * (b.nights : ℚ)) ∧
    (∀ key amount, EXTRA_PRICING key = some ("per_person_per_day", amount) →
      catalogCost guests b.nights key = amount * (guests : ℚ) * (b.nights : ℚ)) := by
  have hd : 1 ≤ end_ - start := by
    by_contra hlt
    rw [compute_quote_error boat start end_ guests extras (by omega)] at h
    exact absurd h (by simp)
  rw [compute_quote_ok boat start end_ guests extras hd] at h
  obtain rfl := Except.ok.inj h
  refine ⟨by simp [EXTRA_PRICING], by simp [EXTRA_PRICING], by simp [EXTRA_PRICING],
    rfl, ?_, ?_⟩
  · intro key amount hk
    show catalogCost guests (end_ - start) key = _
    simp [catalogCost, hk, extraCost]
  · intro key amount hk
    show catalogCost guests (end_ - start) key = _
    simp [catalogCost, hk, extraCost]

/-- Witness for C5: the priced map of a fuel-and-snorkel selection over a
3-night, 2-guest stay. -/
theorem quote_extras_pricing_witness :
    ∃ b, compute_quote sampleBoat 0 3 2 [("fuel", true), ("snorkel", true)] = .ok b ∧
      b.extras = (([("fuel", true), ("snorkel", true)]).filter enabledKnown).map
        (fun kv => (kv.1, round2 (catalogCost 2 b.nights kv.1))) := by
  refine ⟨_, compute_quote_ok sampleBoat 0 3 2 [("fuel", true), ("snorkel", true)]
    (by norm_num), ?_⟩
  exact (quote_extras_pricing sampleBoat 0 3 2 [("fuel", true), ("snorkel", true)] _
    (compute_quote_ok sampleBoat 0 3 2 [("fuel", true), ("snorkel", true)]
      (by norm_num))).2.2.2.1

/-- C6: unrecognized keys (and keys with a false flag) are ignored: the
whole computation equals the one on the request with those entries removed,
never fails because of them, and the extras map holds recognized keys
only. -/
theorem quote_ignores_unknown_extras (boat : BoatDoc) (start end_ guests : ℤ)
    (extras : List (String × Bool)) :
    compute_quote boat start end_ guests extras =
      compute_quote boat start end_ guests
        (extras.filter fun kv => (EXTRA_PRICING kv.1).isSome) ∧
    compute_quote boat start end_ guests extras =
      compute_quote boat start end_ guests (extras.filter fun kv => kv.2) ∧
    (∀ b, compute_quote boat start end_ guests extras = .ok b →
      ∀ kv ∈ b.extras, (EXTRA_PRICING kv.1).isSome = true) := by
  have hp1 : ∀ kv : String × Bool, enabledKnown kv = true →
      (EXTRA_PRICING kv.1).isSome = true := by
    intro kv hkv
    simp [enabledKnown] at hkv
    exact hkv.2
  have hp2 : ∀ kv : String × Bool, enabledKnown kv = true → kv.2 = true := by
    intro kv hkv
    simp [enabledKnown] at hkv
    exact hkv.1
  rcases lt_or_le (end_ - start) 1 with hd | hd
  · refine ⟨?_, ?_, ?_⟩
    · rw [compute_quote_error boat start end_ guests extras hd,
        compute_quote_error boat start end_ guests _ hd]
    · rw [compute_quote_error boat start end_ guests extras hd,
        compute_quote_error boat start end_ guests _ hd]
    · intro b hb
      rw [compute_quote_error boat start end_ guests extras hd] at hb
      exact absurd hb (by simp)
  · refine ⟨?_, ?_, ?_⟩
    · rw [compute_quote_ok boat start end_ guests extras hd,
        compute_quote_ok boat start end_ guests _ hd,
        pricedExtras_filter _ _ _ hp1, rawExtrasTotal_filter _ _ _ hp1]
    · rw [compute_quote_ok boat start end_ guests extras hd,
        compute_quote_ok boat start end_ guests _ hd,
        pricedExtras_filter _ _ _ hp2, rawExtrasTotal_filter _ _ _ hp2]
    · intro b hb
      rw [compute_quote_ok boat start end_ guests extras hd] at hb
      obtain rfl := Except.ok.inj hb
      intro kv hkv
      show (EXTRA_PRICING kv.1).isSome = true
      unfold pricedExtras at hkv
      obtain ⟨kv0, hkv0, rfl⟩ := List.mem_map.mp hkv
      exact hp1 kv0 (List.of_mem_filter hkv0)

/-- Witness for C6: an unknown key and a disabled known key against the
empty selection, over a 2-night stay. -/
theorem quote_ignores_unknown_extras_witness :
    compute_quote sampleBoat 0 2 2 [("jetpack", true), ("skipper", false)] =
      compute_quote sampleBoat 0 2 2
        (([("jetpack", true), ("skipper", false)]).filter
          fun kv => (EXTRA_PRICING kv.1).isSome) ∧
    (([("jetpack", true), ("skipper", false)] : List (String × Bool)).filter
        fun kv => (EXTRA_PRICING kv.1).isSome) = [("skipper", false)] := by
  exact ⟨(quote_ignores_unknown_extras sampleBoat 0 2 2
    [("jetpack", true), ("skipper", false)]).1, by decide⟩

/-- C7: the two worked examples on the 420/35/8% rate card: 3 nights,
2 guests, skipper and snorkel give base 1260, skipper 450, snorkel 120,
extras total 570, subtotal 1865, tax 149.20, total 2014.20; 1 night with no
extras gives base 420, subtotal 455, tax 36.40, total 491.40. -/
theorem quote_concrete_examples :
    (compute_quote sampleBoat 0 3 2 [("skipper", true), ("snorkel", true)] =
      .ok ⟨3, 1260, [("skipper", 450), ("snorkel", 120)], 35, 1492 / 10, 20142 / 10,
        "USD", true, "Prices include all fees and taxes. No hidden fees."⟩ ∧
     sumVals [("skipper", (450 : ℚ)), ("snorkel", 120)] = 570 ∧
     (1260 : ℚ) + sumVals [("skipper", (450 : ℚ)), ("snorkel", 120)] + 35 = 1865) ∧
    (compute_quote sampleBoat 0 1 2 [] =
      .ok ⟨1, 420, [], 35, 364 / 10, 4914 / 10,
        "USD", true, "Prices include all fees and taxes. No hidden fees."⟩ ∧
     (420 : ℚ) + sumVals [] + 35 = 455) := by
  refine ⟨⟨sample_quote_three_nights, ?_, ?_⟩, sample_quote_one_night, ?_⟩ <;>
    norm_num [sumVals]

end BoatRental
